import Mathlib

/-!
Verification of the MindSphere mobile client (React Native / Expo).

Shallow embedding of the screen-level state and handlers that the
specification talks about: the AI-therapist chat screen
(`app/community.tsx`, second component, and its variant in
`unnamed/part_001`), the safe-report screen (`app/safe-report.tsx`),
the tabs home screen with greeting and mood selection
(`app/(tabs)/community.tsx`, second component), the community list
loading (`app/(tabs)/community.tsx`, first component, and
`app/community.tsx`, first component), and the login / create-account
form validation (`unnamed/part_000`, `unnamed/part_004`).

Screen state becomes an explicit record, each event handler becomes a
function from the pre-state (plus the outcome of the backend call it
awaits) to the post-state, and the observable side effects that matter
to the claims (console logs, alert dialogs, the dial prompt, the POST
body) are returned alongside the new state.
-/

namespace MindSphere

/-! JavaScript string helpers used by the handlers. -/

/-- JS `String.prototype.trim()`: strip whitespace from both ends. -/
def jsTrim (s : String) : String :=
  ⟨((s.data.dropWhile Char.isWhitespace).reverse.dropWhile Char.isWhitespace).reverse⟩

/-- JS `a || b` on an optional string argument: `undefined` and the empty
string are falsy, so they fall through to `b`. -/
def jsOrString (a : Option String) (b : String) : String :=
  match a with
  | some t => if t = "" then b else t
  | none => b

/-! AI-therapist chat screen (`app/community.tsx`, second component;
variant in `unnamed/part_001`). -/

/-- Sender tag of a chat message (`'user' | 'bot'`). -/
inductive Sender where
  | user
  | bot
  deriving DecidableEq

/-- The `Message` interface of the chat screen.  `Date.now()` values are
modelled as `Nat`; the string ids produced by `Date.now().toString()`
use `toString`. -/
structure Message where
  id : String
  text : String
  sender : Sender
  timestamp : Nat
  deriving DecidableEq

/-- Local component state of the AI-therapist screen. -/
structure ChatState where
  messages : List Message
  inputValue : String
  isLoading : Bool
  sessionId : Option String
  deriving DecidableEq

/-- Outcome of the `POST /chat/message` fetch: an OK response carrying
`data.response` (the empty string models a missing/empty field), a
non-OK response, or a thrown network error. -/
inductive ChatApi where
  | ok (response : String)
  | httpError
  | networkError

/-- Fallback substituted by `sendMessageToAPI` when the OK response has a
falsy `data.response` field. -/
def fallbackPrompt : String := "I\x27m here to listen. Could you tell me more about that?"

/-- Fallback returned by `sendMessageToAPI`'s catch block (it also
catches the `throw` on a non-OK response). -/
def fallbackError : String :=
  "I\x27m having trouble connecting right now. But I\x27m here for you. Please try again."

/-- `sendMessageToAPI`: returns `data.response || fallbackPrompt` on an OK
response and `fallbackError` from the catch block otherwise.  It never
throws. -/
def sendMessageToAPI (api : ChatApi) : String :=
  match api with
  | .ok r => if r = "" then fallbackPrompt else r
  | .httpError => fallbackError
  | .networkError => fallbackError

/-- The optimistic user message built by `handleSendMessage`
(`id: Date.now().toString()`). -/
def userMessage (textToSend : String) (now : Nat) : Message :=
  { id := toString now, text := textToSend, sender := .user, timestamp := now }

/-- The bot message built by `handleSendMessage`
(`id: (Date.now() + 1).toString()`). -/
def botMessage (now : Nat) (botResponse : String) : Message :=
  { id := toString (now + 1), text := botResponse, sender := .bot, timestamp := now }

/-- First phase of `handleSendMessage`, up to the `await`: the guard
`if (!textToSend.trim() || isLoading) return;`, then the optimistic
append of the user message, clearing the input and raising the loading
flag. -/
def handleSendDispatch (s : ChatState) (messageText : Option String) (now : Nat) : ChatState :=
  let textToSend := jsOrString messageText s.inputValue
  if jsTrim textToSend = "" || s.isLoading then s
  else
    { s with messages := s.messages ++ [userMessage textToSend now],
             inputValue := "", isLoading := true }

/-- `handleSendMessage`, run to completion: guard, optimistic user
append, `await sendMessageToAPI`, bot append, loading flag cleared.
`sendMessageToAPI` never throws, so the handler always completes. -/
def handleSendMessage (s : ChatState) (messageText : Option String) (now : Nat)
    (api : ChatApi) : ChatState :=
  let textToSend := jsOrString messageText s.inputValue
  if jsTrim textToSend = "" || s.isLoading then s
  else
    let s1 : ChatState :=
      { s with messages := s.messages ++ [userMessage textToSend now],
               inputValue := "", isLoading := true }
    { s1 with messages := s1.messages ++ [botMessage now (sendMessageToAPI api)],
              isLoading := false }

/-- The seed transcript the screen mounts with (`useState<Message[]>([...])`). -/
def chatSeed : ChatState :=
  { messages := [
      { id := "1", text := "Hello aurora1111 👋☀️!", sender := .bot, timestamp := 0 },
      { id := "2", text := "How are you doing today?", sender := .bot, timestamp := 0 },
      { id := "3", text := "I\x27m here to listen and help you with anything on your mind",
        sender := .bot, timestamp := 0 } ],
    inputValue := "", isLoading := false, sessionId := none }

/-- The seed state with a non-empty draft in the input box. -/
def chatReady : ChatState := { chatSeed with inputValue := "hello" }

/-- The seed state while a request is in flight. -/
def chatLoading : ChatState := { chatSeed with inputValue := "hi", isLoading := true }

/-! Observable side effects of the fetch helpers: console logs and alert
dialogs, in the order they are emitted. -/

/-- Console log lines and alert dialogs emitted by a handler. -/
structure Effects where
  logs : List String
  alerts : List String
  deriving DecidableEq

/-- Outcome of an axios call: axios throws on any non-2xx status, so a
single `error` constructor covers both transport and HTTP failures. -/
inductive AxiosResult (α : Type) where
  | ok (data : α)
  | error

/-- Outcome of a `fetch` call: an OK response with parsed body, a non-OK
response (`response.ok` false, `fetch` does not throw), or a thrown
network error. -/
inductive FetchOutcome (α : Type) where
  | ok (data : α)
  | httpError
  | networkError

/-- The `Community` interface (optional fields dropped; only identity
matters to the claims). -/
structure Community where
  id : String
  name : String
  deriving DecidableEq

/-- `fetchCommunities` (`app/community.tsx`, first component): on success
it stores the list and logs it; the catch block logs
`console.error(...)` and shows no alert. -/
def fetchCommunities (recommended : List Community) (api : AxiosResult (List Community)) :
    List Community × Effects :=
  match api with
  | .ok data => (data, { logs := ["Communities:"], alerts := [] })
  | .error => (recommended, { logs := ["Error fetching communities:"], alerts := [] })

/-- `initializeSession` (AI-therapist screen): stores the session id when
`response.ok`; a non-OK response is silently ignored; the catch block
only logs. -/
def initializeSession (sessionId : Option String) (api : FetchOutcome String) :
    Option String × Effects :=
  match api with
  | .ok sid => (some sid, { logs := [], alerts := [] })
  | .httpError => (sessionId, { logs := [], alerts := [] })
  | .networkError => (sessionId, { logs := ["Failed to initialize session:"], alerts := [] })

/-- A message of the `GET /chat/history` payload. -/
structure HistoryMsg where
  text : String
  sender : Sender
  timestamp : Nat
  deriving DecidableEq

/-- `fetchChatHistory` (`unnamed/part_001`): on `response.ok` the message
list is replaced by the mapped history (ids `history-0`, `history-1`, ...); a non-OK
response is silently ignored; the catch block only logs. -/
def fetchChatHistory (messages : List Message) (api : FetchOutcome (List HistoryMsg)) :
    List Message × Effects :=
  match api with
  | .ok data =>
      (data.enum.map (fun p =>
        { id := "history-" ++ toString p.1, text := p.2.text,
          sender := p.2.sender, timestamp := p.2.timestamp }),
       { logs := [], alerts := [] })
  | .httpError => (messages, { logs := [], alerts := [] })
  | .networkError => (messages, { logs := ["Failed to fetch chat history:"], alerts := [] })

/-! Tabs home screen (`app/(tabs)/community.tsx`, second component):
greeting and mood selection. -/

/-- `setGreetingBasedOnTime`, as a function of `new Date().getHours()`. -/
def setGreetingBasedOnTime (hour : Nat) : String :=
  if hour < 12 then "Good Morning"
  else if hour < 18 then "Good Afternoon"
  else "Good Evening"

/-- The `Mood` union type of the tabs home screen. -/
inductive Mood where
  | good
  | joyful
  | sad
  | bored
  | angry
  | stressed
  deriving DecidableEq

/-- One entry of the fixed `moods` array. -/
structure MoodOption where
  id : Mood
  label : String
  emoji : String
  deriving DecidableEq

/-- The six fixed mood buttons. -/
def moods : List MoodOption := [
  { id := .good, label := "Good", emoji := "🍐" },
  { id := .joyful, label := "Joyful", emoji := "🍎" },
  { id := .sad, label := "Sad", emoji := "🫐" },
  { id := .bored, label := "Bored", emoji := "🍇" },
  { id := .angry, label := "Angry", emoji := "🌶️" },
  { id := .stressed, label := "Stressed", emoji := "🥑" } ]

/-- Body of the `POST /mood/history/{user_id}` request. -/
structure MoodPostBody where
  mood : Mood
  timestamp : Nat
  note : String
  deriving DecidableEq

/-- The home-screen state the mood claims are about. -/
structure HomeState where
  selectedMood : Option Mood
  greeting : String
  deriving DecidableEq

/-- Initial home-screen state (`useState<Mood | null>(null)`,
`useState('Good Morning')`). -/
def homeInit : HomeState := { selectedMood := none, greeting := "Good Morning" }

/-- `handleMoodSelection`: highlights the tapped mood and builds the POST
body `{ mood, timestamp, note: '' }`. -/
def handleMoodSelection (s : HomeState) (mood : Mood) (now : Nat) :
    HomeState × MoodPostBody :=
  ({ s with selectedMood := some mood },
   { mood := mood, timestamp := now, note := "" })

/-- A sequence of mood-button taps applied in order. -/
def applyMoodTaps (s : HomeState) (taps : List (Mood × Nat)) : HomeState :=
  taps.foldl (fun st p => (handleMoodSelection st p.1 p.2).1) s

/-! Community list loading (`app/(tabs)/community.tsx`, first component). -/

/-- JS `Array.prototype.slice(a, b)` for `a ≤ b`. -/
def jsSlice {α : Type} (l : List α) (a b : Nat) : List α := (l.drop a).take (b - a)

/-- The partition done by `loadCommunities` on the fetched list:
`allCommunities.slice(0, 4)` become "my communities" and
`allCommunities.slice(4, 7)` become "recommended". -/
def loadCommunitiesPartition (allCommunities : List Community) :
    List Community × List Community :=
  (jsSlice allCommunities 0 4, jsSlice allCommunities 4 7)

/-! Login (`unnamed/part_000`) and create-account (`unnamed/part_004`)
form validation. -/

/-- A character allowed by the `[^\s@]` classes of the email regex. -/
def emailCharOk (c : Char) : Bool := !c.isWhitespace && c != '@'

/-- The part after the `@` matches `[^\s@]+\.[^\s@]+`: every character
allowed, with a dot that is neither first nor last. -/
def emailDomainOk (l : List Char) : Bool :=
  l.all emailCharOk &&
    (List.range l.length).any (fun i =>
      decide (0 < i) && decide (i + 1 < l.length) && (l.getD i ' ' == '.'))

/-- `isValidEmail`: the test of `/^[^\s@]+@[^\s@]+\.[^\s@]+$/` against the
whole string, by its exists-a-split semantics. -/
def isValidEmail (email : String) : Bool :=
  let cs := email.data
  (List.range cs.length).any (fun j =>
    (cs.getD j ' ' == '@') && !(cs.take j).isEmpty &&
      (cs.take j).all emailCharOk && emailDomainOk (cs.drop (j + 1)))

/-- `validateForm` of the create-account screen: the chain of early
returns, each with its alert message.  The regex runs on the raw
`email`, not on `email.trim()`. -/
def createValidateForm (displayName email password : String) : Bool × Option String :=
  if jsTrim displayName = "" then
    (false, some "Please enter a display name")
  else if (jsTrim displayName).length < 3 then
    (false, some "Display name must be at least 3 characters")
  else if jsTrim email = "" then
    (false, some "Please enter an email address")
  else if !isValidEmail email then
    (false, some "Please enter a valid email address")
  else if password = "" then
    (false, some "Please enter a password")
  else if password.length < 8 then
    (false, some "Password must be at least 8 characters")
  else (true, none)

/-- `validateForm` of the login screen. -/
def loginValidateForm (username password : String) : Bool × Option String :=
  if jsTrim username = "" then
    (false, some "Please enter your username")
  else if password = "" then
    (false, some "Please enter your password")
  else (true, none)

/-- Modelled from the spec: the claim's reading of create-account
validation, in which the email regex is applied to the TRIMMED email.
Kept separate from `createValidateForm` (the code), to be compared with
it. -/
def createValidSpec (displayName email password : String) : Bool :=
  !(jsTrim displayName = "") && !((jsTrim displayName).length < 3) &&
    !(jsTrim email = "") && isValidEmail (jsTrim email) &&
    !(password = "") && !(password.length < 8)

/-! Safe-report screen (`app/safe-report.tsx`). -/

/-- The `ReportTypeId` union type. -/
inductive ReportTypeId where
  | emergency
  | suicide
  | domestic_violence_women
  | domestic_violence_men
  | child_abuse
  | crime_violence
  deriving DecidableEq

/-- The `ReportAction` union type (`'call' | 'report'`). -/
inductive ReportAction where
  | call
  | report
  deriving DecidableEq

/-- One card of the fixed `reportTypes` array (icon and colors dropped). -/
structure ReportTypeCard where
  id : ReportTypeId
  label : String
  action : ReportAction
  deriving DecidableEq

/-- The six fixed cards of the safe-report screen. -/
def reportTypes : List ReportTypeCard := [
  { id := .emergency, label := "Call 119\nDispatcher", action := .call },
  { id := .suicide, label := "Call Suicide\nPrevention Hotline", action := .call },
  { id := .domestic_violence_women, label := "Call Women\nDomestic Violence\nHelpline",
    action := .call },
  { id := .domestic_violence_men, label := "Call Men\nDomestic Violence\nHelpline",
    action := .call },
  { id := .child_abuse, label := "Report\nChild\nAbuse", action := .report },
  { id := .crime_violence, label := "Report\nCrime and Violence", action := .report } ]

/-- The `phoneNumbers` record of `handleEmergencyCall`. -/
def phoneNumbers (t : ReportTypeId) : Option String :=
  match t with
  | .emergency => some "119"
  | .suicide => some "1-888-429-5343"
  | .domestic_violence_women => some "1-888-991-4444"
  | .domestic_violence_men => some "1-800-799-7233"
  | _ => none

/-- The confirmation dialog raised by `handleEmergencyCall`: its confirm
button runs `Linking.openURL(confirmUrl)`. -/
structure CallPrompt where
  title : String
  message : String
  confirmUrl : String
  deriving DecidableEq

/-- `handleEmergencyCall`: looks the type up in `phoneNumbers` and, when
found, raises the Cancel / Call-Now alert whose confirm opens
`tel:` + number. -/
def handleEmergencyCall (t : ReportTypeId) : Option CallPrompt :=
  match phoneNumbers t with
  | some n =>
      some { title := "Emergency Call", message := "Call " ++ n ++ "?",
             confirmUrl := "tel:" ++ n }
  | none => none

/-- Local component state of the safe-report screen.  `none` models the
`''` value of `selectedType`. -/
structure ReportState where
  selectedType : Option ReportTypeId
  reportContent : String
  location : String
  isAnonymous : Bool
  isLoading : Bool
  deriving DecidableEq

/-- Initial safe-report state. -/
def initialReportState : ReportState :=
  { selectedType := none, reportContent := "", location := "",
    isAnonymous := true, isLoading := false }

/-- `handleTypeSelect`: a card whose action is `'call'` goes through
`handleEmergencyCall` and leaves the state alone; otherwise the card
becomes the selected type. -/
def handleTypeSelect (s : ReportState) (t : ReportTypeId) :
    ReportState × Option CallPrompt :=
  match reportTypes.find? (fun r => r.id == t) with
  | some r =>
      if r.action == .call then (s, handleEmergencyCall t)
      else ({ s with selectedType := some t }, none)
  | none => ({ s with selectedType := some t }, none)

/-- The render condition of the report form:
`selectedType && reportTypes.find(r => r.id === selectedType)?.action === 'report'`. -/
def reportFormVisible (s : ReportState) : Bool :=
  match s.selectedType with
  | none => false
  | some t =>
      match reportTypes.find? (fun r => r.id == t) with
      | some r => r.action == .report
      | none => false

/-- `validateForm` of the safe-report screen. -/
def validateReportForm (s : ReportState) : Bool × Option String :=
  match s.selectedType with
  | none => (false, some "Please select a report type")
  | some _ =>
      if jsTrim s.reportContent = "" then (false, some "Please describe what happened")
      else (true, none)

/-- Outcome of the `POST /reports` fetch. -/
inductive SubmitResult where
  | ok
  | httpError
  | networkError

/-- `handleSubmitReport`, run to completion.  On success the fields are
cleared by the OK button of the success alert (the anonymity flag is
not reset); on a non-OK response or a network error only an alert is
shown, and the `finally` block lowers the loading flag. -/
def handleSubmitReport (s : ReportState) (api : SubmitResult) :
    ReportState × Option String :=
  if (validateReportForm s).1 = true then
    match api with
    | .ok =>
        ({ s with selectedType := none, reportContent := "", location := "",
                  isLoading := false },
         some "Report Submitted")
    | .httpError => ({ s with isLoading := false }, some "Submission Error")
    | .networkError => ({ s with isLoading := false }, some "Network Error")
  else (s, (validateReportForm s).2)

/-- Console and alert output of `handleSubmitReport`, branch by branch:
the validation failure, the success path, the non-OK response and the
catch block each call `Alert.alert` (their titles listed here), and no
branch of the function contains a console call, so every branch emits
an empty log list. -/
def handleSubmitReportEffects (s : ReportState) (api : SubmitResult) : Effects :=
  if (validateReportForm s).1 = true then
    match api with
    | .ok => { logs := [], alerts := ["Report Submitted"] }
    | .httpError => { logs := [], alerts := ["Submission Error"] }
    | .networkError => { logs := [], alerts := ["Network Error"] }
  else { logs := [], alerts := ["Validation Error"] }

/-! Theorems. -/

/-- C4: for every hour-of-day, the greeting is the three-way bucketing of
the hour: before 12 "Good Morning", from 12 to before 18
"Good Afternoon", from 18 on "Good Evening". -/
theorem greeting_three_way_buckets (h : Nat) :
    (h < 12 → setGreetingBasedOnTime h = "Good Morning") ∧
    (12 ≤ h → h < 18 → setGreetingBasedOnTime h = "Good Afternoon") ∧
    (18 ≤ h → setGreetingBasedOnTime h = "Good Evening") := by
  unfold setGreetingBasedOnTime
  refine ⟨fun h1 => ?_, fun h2 h3 => ?_, fun h4 => ?_⟩
  · rw [if_pos h1]
  · rw [if_neg (by omega), if_pos h3]
  · rw [if_neg (by omega), if_neg (by omega)]

/-- Witness for C4 at hours 8, 13 and 20. -/
theorem greeting_three_way_buckets_witness :
    setGreetingBasedOnTime 8 = "Good Morning" ∧
    setGreetingBasedOnTime 13 = "Good Afternoon" ∧
    setGreetingBasedOnTime 20 = "Good Evening" :=
  ⟨(greeting_three_way_buckets 8).1 (by omega),
   (greeting_three_way_buckets 13).2.1 (by omega) (by omega),
   (greeting_three_way_buckets 20).2.2 (by omega)⟩

/-- C6: after a successful fetch of the list `l`, "my communities" is
`l.slice(0, 4)`, i.e. the first four elements, "recommended" is
`l.slice(4, 7)`, i.e. the elements at indices 4 through 6, and together
the two sub-lists are exactly the first seven elements of `l`, each
shown element coming from exactly one of them. -/
theorem communities_slice_partition (l : List Community) :
    (loadCommunitiesPartition l).1 = l.take 4 ∧
    (loadCommunitiesPartition l).2 = (l.drop 4).take 3 ∧
    (loadCommunitiesPartition l).1 ++ (loadCommunitiesPartition l).2 = l.take 7 ∧
    (loadCommunitiesPartition l).1.length ≤ 4 ∧
    (loadCommunitiesPartition l).2.length ≤ 3 := by
  refine ⟨rfl, rfl, ?_, ?_, ?_⟩
  · show l.take 4 ++ (l.drop 4).take 3 = l.take 7
    exact (List.take_add l 4 3).symm
  · show ((l.drop 0).take (4 - 0)).length ≤ 4
    exact List.length_take_le _ _
  · show ((l.drop 4).take (7 - 4)).length ≤ 3
    exact List.length_take_le _ _

/-- C10: with an empty or whitespace-only input, or with a request already
in flight, invoking send leaves the whole chat state unchanged; in
particular a second request can never be started while one is in
flight. -/
theorem send_noop_when_empty_or_loading (s : ChatState) (now : Nat) (api : ChatApi)
    (h : jsTrim s.inputValue = "" ∨ s.isLoading = true) :
    handleSendMessage s none now api = s := by
  unfold handleSendMessage jsOrString
  rcases h with h | h
  · rw [if_pos (by simp [h])]
  · rw [if_pos (by simp [h])]

/-- Witness for C10: an empty input and an in-flight request, each a
no-op. -/
theorem send_noop_when_empty_or_loading_witness :
    handleSendMessage chatSeed none 5 ChatApi.networkError = chatSeed ∧
    handleSendMessage chatLoading none 6 ChatApi.httpError = chatLoading :=
  ⟨send_noop_when_empty_or_loading chatSeed 5 ChatApi.networkError (Or.inl rfl),
   send_noop_when_empty_or_loading chatLoading 6 ChatApi.httpError (Or.inr rfl)⟩

/-- C1 counterexample: from the seed transcript with draft "hello" and a
successful backend reply, the completed handler grows the message list
by two (the user turn and the bot turn), not by one. -/
theorem send_length_plus_one_counterexample :
    ¬ (handleSendMessage chatReady none 100 (ChatApi.ok "Sure")).messages.length
        = chatReady.messages.length + 1 := by decide

/-- C1 amended: a successful send of a non-empty message grows the
message list by exactly two — by exactly one at the moment the request
is dispatched (the optimistic user copy), and by one more when the bot
reply is appended. -/
theorem send_appends_user_and_bot (s : ChatState) (now : Nat) (api : ChatApi)
    (h1 : ¬ jsTrim s.inputValue = "") (h2 : s.isLoading = false) :
    (handleSendMessage s none now api).messages.length = s.messages.length + 2 ∧
    (handleSendDispatch s none now).messages.length = s.messages.length + 1 := by
  unfold handleSendMessage handleSendDispatch jsOrString
  rw [if_neg (by simp [h1, h2]), if_neg (by simp [h1, h2])]
  simp

/-- Witness for C1 at the seed transcript with draft "hello". -/
theorem send_appends_user_and_bot_witness :
    (handleSendMessage chatReady none 100 (ChatApi.ok "Sure")).messages.length
      = chatReady.messages.length + 2 ∧
    (handleSendDispatch chatReady none 100).messages.length
      = chatReady.messages.length + 1 :=
  send_appends_user_and_bot chatReady 100 (ChatApi.ok "Sure") (by decide) rfl

/-- C3 counterexample: when the backend answers OK with an empty
`response` field, the appended bot text is not the backend's text but a
locally generated fallback. -/
theorem bot_reply_equals_response_counterexample :
    ¬ (handleSendMessage chatReady none 100 (ChatApi.ok "")).messages.map Message.text
        = chatReady.messages.map Message.text ++ [chatReady.inputValue, ""] := by decide

/-- C3 amended: the appended bot text equals the backend's text whenever
the request succeeds and that text is non-empty; an empty or missing
field is replaced by a fixed prompt, and a failed request by a fixed
error message. -/
theorem bot_reply_nonempty_response (s : ChatState) (now : Nat) (r : String)
    (hr : ¬ r = "") (h1 : ¬ jsTrim s.inputValue = "") (h2 : s.isLoading = false) :
    sendMessageToAPI (ChatApi.ok r) = r ∧
    (handleSendMessage s none now (ChatApi.ok r)).messages.map Message.text
      = s.messages.map Message.text ++ [s.inputValue, r] := by
  constructor
  · show (if r = "" then fallbackPrompt else r) = r
    rw [if_neg hr]
  · unfold handleSendMessage jsOrString
    rw [if_neg (by simp [h1, h2])]
    simp [userMessage, botMessage, sendMessageToAPI, hr]

/-- Witness for C3 with backend reply "Sure". -/
theorem bot_reply_nonempty_response_witness :
    sendMessageToAPI (ChatApi.ok "Sure") = "Sure" ∧
    (handleSendMessage chatReady none 100 (ChatApi.ok "Sure")).messages.map Message.text
      = chatReady.messages.map Message.text ++ [chatReady.inputValue, "Sure"] :=
  bot_reply_nonempty_response chatReady 100 "Sure" (by decide) (by decide) rfl

/-- C2 counterexample: a failed chat send does not leave the message list
in its pre-action state — the user copy and a fallback bot message were
appended. -/
theorem failed_call_preserves_state_counterexample :
    ¬ (handleSendMessage chatReady none 100 ChatApi.networkError).messages
        = chatReady.messages := by decide

/-- A safe-report state with a report card selected and a filled form. -/
def readyReport : ReportState :=
  { initialReportState with selectedType := some .crime_violence,
                            reportContent := "Something happened" }

/-- C2 amended: a failed report submission leaves every form field
unchanged and shows a visible alert; a failed chat send, however, does
not restore the pre-action state: it appends the user message and a
fixed fallback bot message and clears the input, with no alert. -/
theorem failure_effects_report_and_chat (rs : ReportState) (cs : ChatState) (now : Nat)
    (hv : (validateReportForm rs).1 = true) (hl : rs.isLoading = false)
    (hc1 : ¬ jsTrim cs.inputValue = "") (hc2 : cs.isLoading = false) :
    handleSubmitReport rs SubmitResult.httpError = (rs, some "Submission Error") ∧
    handleSubmitReport rs SubmitResult.networkError = (rs, some "Network Error") ∧
    (handleSendMessage cs none now ChatApi.networkError).messages
      = cs.messages ++ [userMessage cs.inputValue now, botMessage now fallbackError] ∧
    (handleSendMessage cs none now ChatApi.networkError).inputValue = "" := by
  obtain ⟨t, c, loc, anon, ld⟩ := rs
  subst hl
  refine ⟨?_, ?_, ?_, ?_⟩
  · unfold handleSubmitReport
    rw [if_pos hv]
  · unfold handleSubmitReport
    rw [if_pos hv]
  · unfold handleSendMessage jsOrString
    rw [if_neg (by simp [hc1, hc2])]
    simp [sendMessageToAPI]
  · unfold handleSendMessage jsOrString
    rw [if_neg (by simp [hc1, hc2])]

/-- Witness for C2 on a filled report form and the seed chat with draft
"hello". -/
theorem failure_effects_report_and_chat_witness :
    handleSubmitReport readyReport SubmitResult.httpError
      = (readyReport, some "Submission Error") ∧
    handleSubmitReport readyReport SubmitResult.networkError
      = (readyReport, some "Network Error") ∧
    (handleSendMessage chatReady none 100 ChatApi.networkError).messages
      = chatReady.messages
          ++ [userMessage chatReady.inputValue 100, botMessage 100 fallbackError] ∧
    (handleSendMessage chatReady none 100 ChatApi.networkError).inputValue = "" :=
  failure_effects_report_and_chat readyReport chatReady 100 (by decide) rfl
    (by decide) rfl

/-- C9 counterexample: a non-OK response to the session-start call is
neither logged nor alerted, and a failed communities fetch is logged
but never alerted. -/
theorem uniform_error_pattern_counterexample :
    (initializeSession none FetchOutcome.httpError).2.logs = [] ∧
    (initializeSession none FetchOutcome.httpError).2.alerts = [] ∧
    (fetchCommunities [] AxiosResult.error).2.alerts = [] := by decide

/-- C9 amended: every network call is wrapped in a try/catch, but the
failure handling is not the uniform log-and-alert pattern:
`fetchCommunities`, `initializeSession` and `fetchChatHistory` log
caught exceptions to console without showing any alert and leave their
state unchanged; a non-OK response in `initializeSession` or
`fetchChatHistory` is neither logged nor alerted; and
`handleSubmitReport` shows an alert on both a non-OK response and a
caught exception without logging anything to console. -/
theorem error_pattern_actual (st : List Community) (sid : Option String)
    (ms : List Message) (rs : ReportState)
    (hv : (validateReportForm rs).1 = true) :
    fetchCommunities st AxiosResult.error
      = (st, { logs := ["Error fetching communities:"], alerts := [] }) ∧
    initializeSession sid FetchOutcome.httpError
      = (sid, { logs := [], alerts := [] }) ∧
    initializeSession sid FetchOutcome.networkError
      = (sid, { logs := ["Failed to initialize session:"], alerts := [] }) ∧
    fetchChatHistory ms FetchOutcome.httpError
      = (ms, { logs := [], alerts := [] }) ∧
    fetchChatHistory ms FetchOutcome.networkError
      = (ms, { logs := ["Failed to fetch chat history:"], alerts := [] }) ∧
    (handleSubmitReport rs SubmitResult.httpError).2 = some "Submission Error" ∧
    handleSubmitReportEffects rs SubmitResult.httpError
      = { logs := [], alerts := ["Submission Error"] } ∧
    (handleSubmitReport rs SubmitResult.networkError).2 = some "Network Error" ∧
    handleSubmitReportEffects rs SubmitResult.networkError
      = { logs := [], alerts := ["Network Error"] } := by
  refine ⟨rfl, rfl, rfl, rfl, rfl, ?_, ?_, ?_, ?_⟩
  · unfold handleSubmitReport
    rw [if_pos hv]
  · unfold handleSubmitReportEffects
    rw [if_pos hv]
  · unfold handleSubmitReport
    rw [if_pos hv]
  · unfold handleSubmitReportEffects
    rw [if_pos hv]

/-- Witness for C9 on a filled report form. -/
theorem error_pattern_actual_witness :
    fetchCommunities [] AxiosResult.error
      = ([], { logs := ["Error fetching communities:"], alerts := [] }) ∧
    initializeSession none FetchOutcome.httpError
      = (none, { logs := [], alerts := [] }) ∧
    initializeSession none FetchOutcome.networkError
      = (none, { logs := ["Failed to initialize session:"], alerts := [] }) ∧
    fetchChatHistory [] FetchOutcome.httpError
      = ([], { logs := [], alerts := [] }) ∧
    fetchChatHistory [] FetchOutcome.networkError
      = ([], { logs := ["Failed to fetch chat history:"], alerts := [] }) ∧
    (handleSubmitReport readyReport SubmitResult.httpError).2
      = some "Submission Error" ∧
    handleSubmitReportEffects readyReport SubmitResult.httpError
      = { logs := [], alerts := ["Submission Error"] } ∧
    (handleSubmitReport readyReport SubmitResult.networkError).2
      = some "Network Error" ∧
    handleSubmitReportEffects readyReport SubmitResult.networkError
      = { logs := [], alerts := ["Network Error"] } :=
  error_pattern_actual [] none [] readyReport (by decide)

/-- C5 counterexample: with display name "abc", email "a@b.c " (trailing
space) and password "12345678", the trimmed email matches the regex, so
the claim says validation passes; the code tests the regex on the raw
email and rejects. -/
theorem create_validation_iff_counterexample :
    createValidSpec "abc" "a@b.c " "12345678" = true ∧
    (createValidateForm "abc" "a@b.c " "12345678").1 = false := by decide

/-- C5 amended: create-account validation passes iff the trimmed display
name is non-empty and at least 3 characters, the trimmed email is
non-empty, the RAW (untrimmed) email matches the email regex, and the
password is non-empty and at least 8 characters; login validation
passes iff the trimmed username and the password are non-empty. -/
theorem validation_conditions (dn em pw u p : String) :
    ((createValidateForm dn em pw).1 = true ↔
      (¬ jsTrim dn = "" ∧ 3 ≤ (jsTrim dn).length ∧ ¬ jsTrim em = "" ∧
        isValidEmail em = true ∧ ¬ pw = "" ∧ 8 ≤ pw.length)) ∧
    ((loginValidateForm u p).1 = true ↔ (¬ jsTrim u = "" ∧ ¬ p = "")) := by
  constructor
  · unfold createValidateForm
    split_ifs with h1 h2 h3 h4 h5 h6 <;> simp_all
  · unfold loginValidateForm
    split_ifs with h1 h2 <;> simp_all

/-- C7: for every card of the safe-report grid, a `'call'` card leaves the
screen state unchanged and raises the confirmation dialog whose confirm
button opens the dialer on that card's number, while a `'report'` card
raises no dialog and makes the card the selected type, which reveals
the report form; the two branches are mutually exclusive. -/
theorem type_select_call_vs_report (s : ReportState) (r : ReportTypeCard)
    (hr : r ∈ reportTypes) :
    (r.action = ReportAction.call →
      (handleTypeSelect s r.id).1 = s ∧
      ∃ n, phoneNumbers r.id = some n ∧
        (handleTypeSelect s r.id).2
          = some { title := "Emergency Call", message := "Call " ++ n ++ "?",
                   confirmUrl := "tel:" ++ n }) ∧
    (r.action = ReportAction.report →
      (handleTypeSelect s r.id).1 = { s with selectedType := some r.id } ∧
      (handleTypeSelect s r.id).2 = none ∧
      reportFormVisible (handleTypeSelect s r.id).1 = true) := by
  fin_cases hr <;> refine ⟨fun ha => ?_, fun ha => ?_⟩ <;>
    first
      | exact ⟨rfl, _, rfl, rfl⟩
      | exact ⟨rfl, rfl, rfl⟩
      | cases ha

/-- Witness for C7 at the 119-dispatcher card and the child-abuse card. -/
theorem type_select_call_vs_report_witness :
    (handleTypeSelect initialReportState ReportTypeId.emergency).1
      = initialReportState ∧
    (∃ n, phoneNumbers ReportTypeId.emergency = some n ∧
      (handleTypeSelect initialReportState ReportTypeId.emergency).2
        = some { title := "Emergency Call", message := "Call " ++ n ++ "?",
                 confirmUrl := "tel:" ++ n }) ∧
    (handleTypeSelect initialReportState ReportTypeId.child_abuse).1
      = { initialReportState with selectedType := some ReportTypeId.child_abuse } ∧
    (handleTypeSelect initialReportState ReportTypeId.child_abuse).2 = none ∧
    reportFormVisible
      (handleTypeSelect initialReportState ReportTypeId.child_abuse).1 = true := by
  have h1 := (type_select_call_vs_report initialReportState
    { id := .emergency, label := "Call 119\nDispatcher", action := .call }
    (by decide)).1 rfl
  have h2 := (type_select_call_vs_report initialReportState
    { id := .child_abuse, label := "Report\nChild\nAbuse", action := .report }
    (by decide)).2 rfl
  exact ⟨h1.1, h1.2, h2.1, h2.2.1, h2.2.2⟩

/-- Every `Mood` value is the id of one of the six fixed buttons. -/
theorem mood_mem_moods (m : Mood) : ∃ o ∈ moods, o.id = m := by
  cases m
  · exact ⟨{ id := .good, label := "Good", emoji := "🍐" }, by decide, rfl⟩
  · exact ⟨{ id := .joyful, label := "Joyful", emoji := "🍎" }, by decide, rfl⟩
  · exact ⟨{ id := .sad, label := "Sad", emoji := "🫐" }, by decide, rfl⟩
  · exact ⟨{ id := .bored, label := "Bored", emoji := "🍇" }, by decide, rfl⟩
  · exact ⟨{ id := .angry, label := "Angry", emoji := "🌶️" }, by decide, rfl⟩
  · exact ⟨{ id := .stressed, label := "Stressed", emoji := "🥑" }, by decide, rfl⟩

/-- The selected-mood invariant is preserved by any sequence of taps. -/
theorem mood_taps_inv (taps : List (Mood × Nat)) (s : HomeState)
    (hs : s.selectedMood = none ∨ ∃ o ∈ moods, s.selectedMood = some o.id) :
    (applyMoodTaps s taps).selectedMood = none ∨
      ∃ o ∈ moods, (applyMoodTaps s taps).selectedMood = some o.id := by
  induction taps generalizing s with
  | nil => exact hs
  | cons t ts ih =>
      have hstep : applyMoodTaps s (t :: ts)
          = applyMoodTaps (handleMoodSelection s t.1 t.2).1 ts := rfl
      rw [hstep]
      apply ih
      obtain ⟨o, ho, hid⟩ := mood_mem_moods t.1
      exact Or.inr ⟨o, ho, by simp [handleMoodSelection, hid]⟩

/-- C8: a tap on a mood button sets the highlighted state to exactly the
tapped mood's identifier and submits a POST body holding that mood and
the timestamp; after any sequence of taps from the six buttons the
selected-mood state is either empty or exactly one of the six fixed
values. -/
theorem mood_selection_exactly_one (s : HomeState) (m : Mood) (now : Nat)
    (taps : List (Mood × Nat)) :
    (handleMoodSelection s m now).1.selectedMood = some m ∧
    (handleMoodSelection s m now).2 = { mood := m, timestamp := now, note := "" } ∧
    ((applyMoodTaps homeInit taps).selectedMood = none ∨
      ∃ o ∈ moods, (applyMoodTaps homeInit taps).selectedMood = some o.id) :=
  ⟨rfl, rfl, mood_taps_inv taps homeInit (Or.inl rfl)⟩

end MindSphere
